import Mathlib

/- Shallow embedding of src/fitparse.py (nchern/fitviz).

   Conventions of the embedding:
   - An absolute instant (Python datetime, timezone-aware) is modelled as an
     integer number of seconds since the epoch, in one fixed timezone; the
     calendar date of an instant is its floor-quotient by 86400.  The
     conversions between UTC and the local timezone shift every instant and
     every parsed bound uniformly, so one fixed timezone loses no generality
     for the properties proved here.
   - Decoded field values are numeric (Python int modelled as Int, Python
     float modelled as a rational), strings, or absolute instants.  The
     decoder of the Garmin SDK emits each field with a fixed shape, so the
     shapes assumed in the happy paths below are the shapes the code relies
     on; a value of an unexpected shape would make the Python code raise, and
     is modelled as an error.
   - A Python dict of decoded fields has unique keys (dict(items) in
     FITMsg.__init__), so association-list lookup taking the first match
     agrees with it.
   - A raised, uncaught Python exception (KeyError, TypeError, ValueError,
     AttributeError) is modelled as Except.error carrying a description; the
     surrounding main only swallows KeyboardInterrupt and BrokenPipeError,
     so any of these aborts the run.
   - Python round(x, 2) is modelled exactly on rationals with round-half-to-
     even tie breaking; the binary floating point representation error of
     Python floats is abstracted away (all concrete values used in theorems
     round exactly). -/

inductive FieldVal where
  | num (n : Int)
  | dec (q : ℚ)
  | str (s : String)
  | dt (t : Int)
deriving DecidableEq, Repr

def FieldVal.toQ : FieldVal → Option ℚ
  | .num n => some (n : ℚ)
  | .dec q => some q
  | _ => none

/-- One decoded message, as wrapped by class FITMsg in src/fitparse.py. -/
structure FITMsg where
  file_name : String
  group_name : String
  fields : List (String × FieldVal)
deriving DecidableEq, Repr

def FITMsg.has_fields (m : FITMsg) (ks : List String) : Bool :=
  ks.all fun k => (m.fields.lookup k).isSome

/-- Calendar date of an instant, as an integer day index (floor division,
    matching datetime.date for the fixed timezone of the model). -/
def dateOf (t : Int) : Int := t.fdiv 86400

/-- FITMsg.timestamp: stress records resolve their instant from the
    stress_level_time field, every other group from the timestamp field.
    Python tests the result for truthiness; a present datetime is always
    truthy, so absence is exactly the none case. -/
def FITMsg.timestamp (m : FITMsg) : Option Int :=
  if m.group_name = "stress_level_mesgs" then
    match m.fields.lookup "stress_level_time" with
    | some (.dt t) => some t
    | _ => none
  else
    match m.fields.lookup "timestamp" with
    | some (.dt t) => some t
    | _ => none

/-- FITMsg.timestamp_in: the inclusive date-range predicate of the stream
    filter (src/fitparse.py lines 67 to 75). -/
def FITMsg.timestamp_in (m : FITMsg) (since untl : Option Int) : Bool :=
  match m.timestamp with
  | none => true
  | some t =>
    if since.any fun s => decide (dateOf t < dateOf s) then false
    else if untl.any fun u => decide (dateOf u < dateOf t) then false
    else true

/-- Result of the external decoder for one file: either not a FIT container,
    or a message list together with the per-message error list returned by
    Decoder.read. -/
inductive DecodeResult where
  | notFit
  | decoded (msgs : List FITMsg) (errors : List String)
deriving Repr

/-- parse_file plus _read_from: raises ValueError when the container is
    invalid or the decoder reports any error, otherwise yields the decoded
    messages of the file. -/
def parse_file (name : String) (r : DecodeResult) : Except String (List FITMsg) :=
  match r with
  | .notFit => .error ("not a valid FIT file: " ++ name)
  | .decoded msgs errs =>
    if errs.isEmpty then .ok msgs
    else .error ("failed to read: " ++ name)

/-- parse_files: drains the files in order, applying the timestamp_in filter
    to each decoded message.  The generator semantics of Python mean the
    messages of files before a failing file have already been yielded when
    the ValueError propagates; the pair returned here is the yielded list
    together with the terminal error, if any. -/
def parse_files : List (String × DecodeResult) → Option Int → Option Int →
    List FITMsg × Option String
  | [], _, _ => ([], none)
  | (name, r) :: rest, since, untl =>
    match parse_file name r with
    | .error e => ([], some e)
    | .ok msgs =>
      let kept := msgs.filter fun m => m.timestamp_in since untl
      let tail := parse_files rest since untl
      (kept ++ tail.1, tail.2)

/-- C3: the stream filter passes a record with no resolvable timestamp
    unconditionally, and otherwise passes it exactly when the date of its
    timestamp lies inside each bound that is present, both bounds
    inclusive. -/
theorem C3_date_filter (m : FITMsg) (since untl : Option Int) :
    m.timestamp_in since untl = true ↔
      m.timestamp = none ∨
        ∃ t, m.timestamp = some t ∧
          (∀ s ∈ since, dateOf s ≤ dateOf t) ∧
          (∀ u ∈ untl, dateOf t ≤ dateOf u) := by
  unfold FITMsg.timestamp_in
  cases hts : m.timestamp with
  | none => simp
  | some t =>
    cases since with
    | none =>
      cases untl with
      | none => simp
      | some u =>
        by_cases h2 : dateOf u < dateOf t <;> simp [h2] <;> omega
    | some s =>
      cases untl with
      | none =>
        by_cases h1 : dateOf t < dateOf s <;> simp [h1] <;> omega
      | some u =>
        by_cases h1 : dateOf t < dateOf s <;>
          by_cases h2 : dateOf u < dateOf t <;>
          simp [h1, h2] <;> omega

/-- Python round(x, 2): round-half-to-even on exact rationals. -/
def roundHalfEven (q : ℚ) : Int :=
  if q - (⌊q⌋ : ℚ) < 1 / 2 then ⌊q⌋
  else if 1 / 2 < q - (⌊q⌋ : ℚ) then ⌊q⌋ + 1
  else if ⌊q⌋ % 2 = 0 then ⌊q⌋ else ⌊q⌋ + 1

def pyRound2 (q : ℚ) : ℚ := (roundHalfEven (q * 100) : ℚ) / 100

/-- One value of the per-day, per-activity-type dictionary of
    plot_steps_history (the ActivityRecord namedtuple). -/
structure ActivityRecord where
  active_calories : ℚ
  distance : ℚ
  steps : ℚ
deriving DecidableEq, Repr

/-- The nested dictionary ds of plot_steps_history: date to activity type to
    snapshot, as an insertion-ordered association list like a Python dict. -/
abbrev AggMap := List (Int × List (FieldVal × ActivityRecord))

def lookupRec : List (FieldVal × ActivityRecord) → FieldVal → Option ActivityRecord
  | [], _ => none
  | (a, v) :: rest, a0 => if a = a0 then some v else lookupRec rest a0

def lookupDay : AggMap → Int → Option (List (FieldVal × ActivityRecord))
  | [], _ => none
  | (d, l) :: rest, d0 => if d = d0 then some l else lookupDay rest d0

def lookup2 (ds : AggMap) (d : Int) (a : FieldVal) : Option ActivityRecord :=
  match lookupDay ds d with
  | some l => lookupRec l a
  | none => none

/-- Dictionary assignment on the inner dict: overwrite the value of an
    existing key, otherwise append (Python dicts keep insertion order). -/
def upsertDay : List (FieldVal × ActivityRecord) → FieldVal → ActivityRecord →
    List (FieldVal × ActivityRecord)
  | [], a, v => [(a, v)]
  | (a0, v0) :: rest, a, v =>
    if a0 = a then (a, v) :: rest else (a0, v0) :: upsertDay rest a v

/-- Dictionary assignment ds[date][activity_type] = record, with the
    defaultdict(dict) semantics of plot_steps_history. -/
def upsertAgg : AggMap → Int → FieldVal → ActivityRecord → AggMap
  | [], d, a, v => [(d, [(a, v)])]
  | (d0, l0) :: rest, d, a, v =>
    if d0 = d then (d, upsertDay l0 a v) :: rest
    else (d0, l0) :: upsertAgg rest d a v

/-- Guard of the aggregation loop body: monitoring group and presence of the
    steps and activity_type fields. -/
def monGuard (m : FITMsg) : Bool :=
  decide (m.group_name = "monitoring_mesgs") && m.has_fields ["steps", "activity_type"]

/-- Extraction of key and snapshot performed by the loop body of
    plot_steps_history: the date of the timestamp, the activity_type value,
    and the ActivityRecord built from active_calories, distance, steps.
    The none case corresponds to a Python exception: the timestamp or a
    further field is read without a guard and is missing or of an
    unexpected shape. -/
def extractMon (m : FITMsg) : Option ((Int × FieldVal) × ActivityRecord) :=
  match m.timestamp, m.fields.lookup "activity_type",
      (m.fields.lookup "active_calories").bind FieldVal.toQ,
      (m.fields.lookup "distance").bind FieldVal.toQ,
      (m.fields.lookup "steps").bind FieldVal.toQ with
  | some t, some a, some c, some dq, some sq => some ((dateOf t, a), ⟨c, dq, sq⟩)
  | _, _, _, _, _ => none

/-- Body of the aggregation loop of plot_steps_history for one record. -/
def stepsAggStep (ds : AggMap) (m : FITMsg) : Except String AggMap :=
  if monGuard m then
    match extractMon m with
    | some ((d, a), v) => .ok (upsertAgg ds d a v)
    | none => .error "KeyError: missing monitoring field"
  else .ok ds

/-- The aggregation loop of plot_steps_history over the filtered stream. -/
def stepsAgg : List FITMsg → AggMap → Except String AggMap
  | [], ds => .ok ds
  | m :: rest, ds =>
    match stepsAggStep ds m with
    | .ok ds1 => stepsAgg rest ds1
    | .error e => .error e

/-- Accumulator step describing, per key, the last snapshot seen so far. -/
def snapStep (d : Int) (a : FieldVal) (acc : Option ActivityRecord) (m : FITMsg) :
    Option ActivityRecord :=
  if monGuard m then
    match extractMon m with
    | some ((d0, a0), v) => if d0 = d ∧ a0 = a then some v else acc
    | none => acc
  else acc

/-- The last eligible snapshot of a stream for one (date, activity) key. -/
def lastSnapshot (msgs : List FITMsg) (d : Int) (a : FieldVal) : Option ActivityRecord :=
  msgs.foldl (snapStep d a) none

theorem lookupRec_upsertDay (l : List (FieldVal × ActivityRecord))
    (a0 : FieldVal) (v : ActivityRecord) (a : FieldVal) :
    lookupRec (upsertDay l a0 v) a = if a0 = a then some v else lookupRec l a := by
  induction l with
  | nil => simp [upsertDay, lookupRec]
  | cons hd tl ih =>
    obtain ⟨a1, v1⟩ := hd
    by_cases h1 : a1 = a0
    · subst h1
      by_cases h2 : a1 = a <;> simp [upsertDay, lookupRec, h2]
    · by_cases h2 : a1 = a
      · subst h2
        have : ¬ a0 = a1 := fun hc => h1 hc.symm
        simp [upsertDay, lookupRec, h1, this]
      · simp [upsertDay, lookupRec, h1, h2, ih]

theorem lookup2_upsertAgg (ds : AggMap) (d0 : Int) (a0 : FieldVal)
    (v : ActivityRecord) (d : Int) (a : FieldVal) :
    lookup2 (upsertAgg ds d0 a0 v) d a =
      if d0 = d ∧ a0 = a then some v else lookup2 ds d a := by
  induction ds with
  | nil =>
    by_cases h1 : d0 = d
    · subst h1
      by_cases h2 : a0 = a <;>
        simp [upsertAgg, lookup2, lookupDay, lookupRec, h2]
    · simp [upsertAgg, lookup2, lookupDay, lookupRec, h1]
  | cons hd tl ih =>
    obtain ⟨d1, l1⟩ := hd
    by_cases h1 : d1 = d0
    · subst h1
      by_cases h2 : d1 = d
      · subst h2
        simp [upsertAgg, lookup2, lookupDay, lookupRec_upsertDay]
      · have hna : ¬ (d1 = d ∧ a0 = a) := fun hc => h2 hc.1
        simp [upsertAgg, lookup2, lookupDay, h2, hna]
    · by_cases h2 : d1 = d
      · subst h2
        have hna : ¬ (d0 = d1 ∧ a0 = a) := fun hc => h1 hc.1.symm
        simp [upsertAgg, lookup2, lookupDay, h1, hna]
      · simp only [upsertAgg, if_neg h1, lookup2, lookupDay, if_neg h2]
        exact ih

theorem stepsAgg_lookup (msgs : List FITMsg) : ∀ ds0 ds : AggMap,
    stepsAgg msgs ds0 = .ok ds → ∀ d a,
    lookup2 ds d a = msgs.foldl (snapStep d a) (lookup2 ds0 d a) := by
  induction msgs with
  | nil =>
    intro ds0 ds h d a
    simp only [stepsAgg, Except.ok.injEq] at h
    subst h
    rfl
  | cons m rest ih =>
    intro ds0 ds h d a
    simp only [stepsAgg] at h
    cases hstep : stepsAggStep ds0 m with
    | error e => rw [hstep] at h; exact absurd h (by simp)
    | ok ds1 =>
      rw [hstep] at h
      have hrec := ih ds1 ds h d a
      rw [hrec]
      simp only [List.foldl_cons]
      congr 1
      unfold stepsAggStep at hstep
      unfold snapStep
      by_cases hg : monGuard m = true
      · rw [if_pos hg] at hstep
        rw [if_pos hg]
        cases hex : extractMon m with
        | none => rw [hex] at hstep; exact absurd hstep (by simp)
        | some kv =>
          obtain ⟨⟨d0, a0⟩, v⟩ := kv
          rw [hex] at hstep
          simp only [Except.ok.injEq] at hstep
          subst hstep
          exact lookup2_upsertAgg ds0 d0 a0 v d a
      · rw [if_neg hg] at hstep
        simp only [Except.ok.injEq] at hstep
        subst hstep
        rw [if_neg hg]

/-- C2: for a stream whose aggregation pass succeeds, the daily activity
    aggregate at any (date, activity_type) key is exactly the snapshot of
    the last eligible record of the stream for that key: a full overwrite,
    never a sum. -/
theorem C2_last_snapshot_wins (msgs : List FITMsg) (ds : AggMap)
    (d : Int) (a : FieldVal) (h : stepsAgg msgs [] = .ok ds) :
    lookup2 ds d a = lastSnapshot msgs d a := by
  have := stepsAgg_lookup msgs [] ds h d a
  simpa [lastSnapshot, lookup2, lookupDay] using this

def demoMon (t : Int) (stepsv : Int) : FITMsg :=
  ⟨"demo.fit", "monitoring_mesgs",
    [("timestamp", .dt t), ("activity_type", .str "running"),
     ("active_calories", .num 5), ("distance", .dec 1200), ("steps", .num stepsv)]⟩

/-- C2 witness: two snapshots of the same day and activity type, steps 100
    then steps 150; the aggregate holds 150, the value of the second
    record, not 250. -/
theorem C2_last_snapshot_wins_witness :
    lookup2 [(0, [(.str "running", ⟨5, 1200, 150⟩)])] 0 (.str "running") =
      lastSnapshot [demoMon 100 100, demoMon 200 150] 0 (.str "running") ∧
    lastSnapshot [demoMon 100 100, demoMon 200 150] 0 (.str "running") =
      some ⟨5, 1200, 150⟩ :=
  ⟨C2_last_snapshot_wins [demoMon 100 100, demoMon 200 150]
    [(0, [(.str "running", ⟨5, 1200, 150⟩)])] 0 (.str "running") rfl,
   by decide⟩

def sumCal (l : List (FieldVal × ActivityRecord)) : ℚ :=
  (l.map fun p => p.2.active_calories).sum

def sumDist (l : List (FieldVal × ActivityRecord)) : ℚ :=
  (l.map fun p => p.2.distance).sum

def sumSteps (l : List (FieldVal × ActivityRecord)) : ℚ :=
  (l.map fun p => p.2.steps).sum

/-- The ascending date keys iterated by the print loop of
    plot_steps_history (for k in sorted(ds.keys())). -/
def sortDates (ds : AggMap) : List Int :=
  List.insertionSort (· ≤ ·) (ds.map Prod.fst)

/-- One printed line of plot_steps_history: date, total active calories,
    total distance rounded to 2 decimals with NO unit conversion (the raw
    meter sum), total steps. -/
def printedRow (ds : AggMap) (d : Int) : Int × ℚ × ℚ × ℚ :=
  match lookupDay ds d with
  | some l => (d, sumCal l, pyRound2 (sumDist l), sumSteps l)
  | none => (d, 0, pyRound2 0, 0)

def printedRows (ds : AggMap) : List (Int × ℚ × ℚ × ℚ) :=
  (sortDates ds).map (printedRow ds)

/-- The distance series handed to the plotting collaborator: here the sums
    ARE divided by 1000 (kilometers), iterating ds in insertion order. -/
def plotDistances (ds : AggMap) : List ℚ :=
  ds.map fun p => pyRound2 (sumDist p.2 / 1000)

theorem printedRow_fst (ds : AggMap) (d : Int) : (printedRow ds d).1 = d := by
  unfold printedRow
  cases lookupDay ds d <;> rfl

theorem lookupDay_mem (ds : AggMap) (d : Int) (l : List (FieldVal × ActivityRecord))
    (h : lookupDay ds d = some l) : (d, l) ∈ ds := by
  induction ds with
  | nil => exact absurd h (by simp [lookupDay])
  | cons hd tl ih =>
    obtain ⟨d1, l1⟩ := hd
    by_cases h1 : d1 = d
    · subst h1
      have h2 : l1 = l := by simpa [lookupDay] using h
      subst h2
      exact List.mem_cons_self _ _
    · simp only [lookupDay, if_neg h1] at h
      exact List.mem_cons_of_mem _ (ih h)

/-- C8 (amended): the printed per-date totals walk the dates in ascending
    order, and the distance column they report is the raw meter sum rounded
    to 2 decimals; the kilometer conversion (divide by 1000 before rounding)
    happens only in the distance series handed to the plotting call. -/
theorem C8_distance_report (ds : AggMap) (d : Int)
    (l : List (FieldVal × ActivityRecord)) (h : lookupDay ds d = some l) :
    ((printedRows ds).map fun r => r.1).Sorted (· ≤ ·) ∧
    (d, sumCal l, pyRound2 (sumDist l), sumSteps l) ∈ printedRows ds ∧
    pyRound2 (sumDist l / 1000) ∈ plotDistances ds := by
  have hmem : (d, l) ∈ ds := lookupDay_mem ds d l h
  refine ⟨?_, ?_, ?_⟩
  · have : ((printedRows ds).map fun r => r.1) = sortDates ds := by
      unfold printedRows
      rw [List.map_map]
      have : ((fun r => r.1) ∘ printedRow ds) = fun d0 => (printedRow ds d0).1 := rfl
      rw [this]
      calc (sortDates ds).map (fun d0 => (printedRow ds d0).1)
          = (sortDates ds).map id := by
            apply List.map_congr_left
            intro x _
            exact printedRow_fst ds x
        _ = sortDates ds := List.map_id _
    rw [this]
    exact List.sorted_insertionSort _ _
  · have hd1 : d ∈ ds.map Prod.fst := List.mem_map_of_mem Prod.fst hmem
    have hd2 : d ∈ sortDates ds :=
      ((List.perm_insertionSort (· ≤ ·) (ds.map Prod.fst)).mem_iff).mpr hd1
    unfold printedRows
    refine List.mem_map.mpr ⟨d, hd2, ?_⟩
    unfold printedRow
    rw [h]
  · unfold plotDistances
    exact List.mem_map.mpr ⟨(d, l), hmem, rfl⟩

def demoDs8 : AggMap := [(0, [(.str "walking", ⟨10, 1500, 2000⟩)])]

/-- C8 counterexample: a single monitoring record with distance 1500 meters.
    The printed line reports distance 1500.0 (meters, rounded), not the
    1.5 kilometers the claim states. -/
theorem C8_distance_report_cex :
    stepsAgg [⟨"demo.fit", "monitoring_mesgs",
        [("timestamp", .dt 0), ("activity_type", .str "walking"),
         ("active_calories", .num 10), ("distance", .dec 1500),
         ("steps", .num 2000)]⟩] [] = .ok demoDs8 ∧
    printedRows demoDs8 = [(0, 10, 1500, 2000)] ∧
    pyRound2 ((1500 : ℚ) / 1000) ≠ (1500 : ℚ) :=
  ⟨rfl,
   by norm_num [printedRows, printedRow, sortDates, demoDs8, lookupDay,
     sumCal, sumDist, sumSteps, pyRound2, roundHalfEven,
     List.insertionSort, List.orderedInsert],
   by norm_num [pyRound2, roundHalfEven]⟩

/-- C8 witness: the amended statement evaluated on the one-day aggregate. -/
theorem C8_distance_report_witness :
    ((printedRows demoDs8).map fun r => r.1).Sorted (· ≤ ·) ∧
    ((0 : Int), sumCal [(.str "walking", ⟨10, 1500, 2000⟩)],
      pyRound2 (sumDist [(.str "walking", ⟨10, 1500, 2000⟩)]),
      sumSteps [(.str "walking", ⟨10, 1500, 2000⟩)]) ∈ printedRows demoDs8 ∧
    pyRound2 (sumDist [(.str "walking", ⟨10, 1500, 2000⟩)] / 1000) ∈ plotDistances demoDs8 :=
  C8_distance_report demoDs8 0 [(.str "walking", ⟨10, 1500, 2000⟩)] rfl

/-- Running state of the heart-rate reconstruction loop in
    plot_pulse_history: last_ts is the last reconstructed instant in whole
    epoch seconds, last_ts_16 the last seen 16-bit counter. -/
structure PulseState where
  last_ts : Option Int
  last_ts_16 : Option Int
deriving DecidableEq, Repr

/-- One iteration of the loop body of plot_pulse_history (src/fitparse.py
    lines 307 to 336) on one record.  A record carrying a full timestamp
    resets the state (int(...) truncation is the identity on the whole
    seconds of the model); a record carrying timestamp_16 and heart_rate is
    reconstructed against last_ts.  When last_ts is still None, the Python
    code reaches None arithmetic or utcfromtimestamp(None) and raises a
    TypeError that nothing catches, modelled as an error.  The since/until
    bounds are applied to the reconstructed instant, after the state
    update, exactly as the code does. -/
def pulseStep (since untl : Option Int) (st : PulseState) (m : FITMsg) :
    Except String (PulseState × List (Int × FieldVal)) :=
  if m.group_name = "monitoring_mesgs" then
    match
      (if (m.fields.lookup "timestamp").isSome then
        match m.fields.lookup "timestamp" with
        | some (.dt t) => Except.ok (⟨some t, none⟩ : PulseState)
        | _ => Except.error "timestamp field is not an instant"
      else Except.ok st) with
    | .error e => .error e
    | .ok st1 =>
      if (m.fields.lookup "timestamp_16").isSome ∧ (m.fields.lookup "heart_rate").isSome then
        match m.fields.lookup "timestamp_16", m.fields.lookup "heart_rate" with
        | some (.num ts16), some hr =>
          match st1.last_ts with
          | none => .error "TypeError: NoneType timestamp arithmetic"
          | some lt =>
            let delta : Int :=
              match st1.last_ts_16 with
              | some p => if p < ts16 then ts16 - p else 0
              | none => 0
            let real_ts := lt + delta
            let keep :=
              (since.all fun s => ! decide (dateOf real_ts < dateOf s)) &&
              (untl.all fun u => ! decide (dateOf u < dateOf real_ts))
            .ok (⟨some real_ts, some ts16⟩,
              if keep then [(real_ts, hr)] else [])
        | _, _ => .error "timestamp_16 field is not an integer"
      else .ok (st1, [])
  else .ok (st, [])

/-- The reconstruction loop of plot_pulse_history over a record stream,
    collecting the emitted (instant, heart rate) rows. -/
def plot_pulse_scan (since untl : Option Int) :
    PulseState → List FITMsg → Except String (List (Int × FieldVal))
  | _, [] => .ok []
  | st, m :: rest =>
    match pulseStep since untl st m with
    | .error e => .error e
    | .ok (st1, out) =>
      match plot_pulse_scan since untl st1 rest with
      | .error e => .error e
      | .ok tail => .ok (out ++ tail)

/-- The instant the claim predicts for a heart-rate record: advance by
    t16 - prev16 only when a previous counter exists and is smaller,
    otherwise stay at the last reconstructed instant. -/
def reconInstant (base : Int) (prev : Option Int) (t16 : Int) : Int :=
  match prev with
  | some p => if p < t16 then base + (t16 - p) else base
  | none => base

/-- C1: on a monitoring record carrying a 16-bit counter and a heart rate
    (and no full timestamp), with an anchored state, the emitted instant is
    the last reconstructed instant advanced by t16 - prev16 when a previous
    counter exists and is smaller, and exactly the last instant otherwise;
    the state then stores the new counter and the new instant, so the scan
    chains the deltas. -/
theorem C1_reconstruction (st : PulseState) (m : FITMsg) (base t16 : Int)
    (hr : FieldVal) (rest : List FITMsg)
    (hg : m.group_name = "monitoring_mesgs")
    (hnots : m.fields.lookup "timestamp" = none)
    (h16 : m.fields.lookup "timestamp_16" = some (.num t16))
    (hhr : m.fields.lookup "heart_rate" = some hr)
    (hbase : st.last_ts = some base) :
    pulseStep none none st m =
      .ok (⟨some (reconInstant base st.last_ts_16 t16), some t16⟩,
           [(reconInstant base st.last_ts_16 t16, hr)]) ∧
    plot_pulse_scan none none st (m :: rest) =
      match plot_pulse_scan none none
          ⟨some (reconInstant base st.last_ts_16 t16), some t16⟩ rest with
      | .error e => .error e
      | .ok tail => .ok ((reconInstant base st.last_ts_16 t16, hr) :: tail) := by
  have hstep : pulseStep none none st m =
      .ok (⟨some (reconInstant base st.last_ts_16 t16), some t16⟩,
           [(reconInstant base st.last_ts_16 t16, hr)]) := by
    unfold pulseStep
    rw [if_pos hg, hnots]
    simp only [Option.isSome_none, Bool.false_eq_true, if_false, h16, hhr,
      Option.isSome_some, true_and, if_pos trivial, hbase]
    unfold reconInstant
    cases hp : st.last_ts_16 with
    | none => simp [Option.all_none]
    | some p =>
      by_cases hlt : p < t16
      · simp [hlt, Option.all_none]
      · simp [hlt, Option.all_none]
  refine ⟨hstep, ?_⟩
  have hcons : plot_pulse_scan none none st (m :: rest) =
      match pulseStep none none st m with
      | .error e => .error e
      | .ok (st1, out) =>
        match plot_pulse_scan none none st1 rest with
        | .error e => .error e
        | .ok tail => .ok (out ++ tail) := rfl
  rw [hcons, hstep]
  cases hres : plot_pulse_scan none none
      ⟨some (reconInstant base st.last_ts_16 t16), some t16⟩ rest with
  | error e => simp [hres]
  | ok tail => simp [hres]

/-- C1 witness: anchored at instant 1000 with previous counter 10, a record
    with counter 25 and heart rate 70 is emitted at 1000 + 15 = 1015. -/
theorem C1_reconstruction_witness :
    pulseStep none none ⟨some 1000, some 10⟩
        ⟨"demo.fit", "monitoring_mesgs",
          [("timestamp_16", .num 25), ("heart_rate", .num 70)]⟩ =
      .ok (⟨some (reconInstant 1000 (some 10) 25), some 25⟩,
           [(reconInstant 1000 (some 10) 25, .num 70)]) ∧
    reconInstant 1000 (some 10) 25 = 1015 :=
  ⟨(C1_reconstruction ⟨some 1000, some 10⟩
      ⟨"demo.fit", "monitoring_mesgs",
        [("timestamp_16", .num 25), ("heart_rate", .num 70)]⟩
      1000 25 (.num 70) [] rfl rfl rfl rfl rfl).1,
   by decide⟩

/-- C7: a heart-rate record with a 16-bit counter arriving before any full
    timestamp does not get dropped: the loop reaches arithmetic on the
    still-None last timestamp and the run aborts with a TypeError, which the
    surrounding program does not catch. -/
theorem C7_unanchored_crash :
    plot_pulse_scan none none ⟨none, none⟩
        [⟨"demo.fit", "monitoring_mesgs",
          [("timestamp_16", .num 100), ("heart_rate", .num 70)]⟩] =
      .error "TypeError: NoneType timestamp arithmetic" := by
  rfl

/-- One emitted sleep row of plot_sleep_history: the list [date, duration,
    score] appended at a stop event, score placeholder 0 until a
    sleep_assessment record overwrites it. -/
structure SleepRow where
  ended_at : Int
  duration_hours : ℚ
  score : FieldVal
deriving DecidableEq, Repr

/-- Running state of the plot_sleep_history loop: the rows collected so far
    and the started_at / finished_at instants.  Neither variable is ever
    reset to None by the loop. -/
structure SleepState where
  rows : List SleepRow
  started_at : Option Int
  finished_at : Option Int
deriving DecidableEq, Repr

def initSleep : SleepState := ⟨[], none, none⟩

/-- rows[-1][2] = score: overwrite the score of the last appended row. -/
def setLastScore : List SleepRow → FieldVal → List SleepRow
  | [], _ => []
  | [r], v => [⟨r.ended_at, r.duration_hours, v⟩]
  | r :: r1 :: rest, v => r :: setLastScore (r1 :: rest) v

/-- duration = round((finished_at - started_at).seconds / 3600., 2): the
    Python timedelta attribute .seconds is only the seconds COMPONENT of
    the normalized timedelta, the value modulo 86400 with the days part
    dropped; it is not total_seconds(). -/
def durationCode (started finished : Int) : ℚ :=
  pyRound2 ((((finished - started) % 86400 : Int) : ℚ) / 3600)

/-- Modelled from the spec: the duration formula the specification states,
    round((stop_instant - start_instant).total_seconds() / 3600, 2), for
    comparison with durationCode. -/
def duration_hours_spec (started finished : Int) : ℚ :=
  pyRound2 (((finished - started : Int) : ℚ) / 3600)

/-- One iteration of the loop body of plot_sleep_history (src/fitparse.py
    lines 354 to 371) on one record.  A start event stores its timestamp
    (even when a session is already open); a stop event with no start ever
    seen is skipped; a stop event with a start seen appends a row keyed by
    the stop date immediately, with score placeholder 0; a sleep assessment
    record overwrites the score of the last row when a stop was seen and
    rows is non-empty.  The error cases are the uncaught Python exceptions
    of the corresponding accesses. -/
def sleepStep (st : SleepState) (m : FITMsg) : Except String SleepState :=
  if m.group_name = "event_mesgs" then
    match m.fields.lookup "event_type" with
    | some (.str "start") => .ok ⟨st.rows, m.timestamp, st.finished_at⟩
    | some (.str "stop") =>
      match st.started_at with
      | none => .ok st
      | some s =>
        match m.timestamp with
        | none => .error "TypeError: stop event without timestamp"
        | some f =>
          .ok ⟨st.rows ++ [⟨dateOf f, durationCode s f, .num 0⟩], some s, some f⟩
    | _ => .ok st
  else if m.group_name = "sleep_assessment_mesgs" then
    if st.finished_at.isSome ∧ st.rows ≠ [] then
      match m.fields.lookup "overall_sleep_score" with
      | some v => .ok ⟨setLastScore st.rows v, st.started_at, st.finished_at⟩
      | none => .error "KeyError: overall_sleep_score"
    else .ok st
  else .ok st

/-- The loop of plot_sleep_history over a record stream. -/
def sleepRunFrom (st : SleepState) : List FITMsg → Except String SleepState
  | [] => .ok st
  | m :: rest =>
    match sleepStep st m with
    | .error e => .error e
    | .ok st1 => sleepRunFrom st1 rest

theorem sleepRunFrom_append (xs ys : List FITMsg) : ∀ st : SleepState,
    sleepRunFrom st (xs ++ ys) =
      match sleepRunFrom st xs with
      | .error e => .error e
      | .ok st1 => sleepRunFrom st1 ys := by
  induction xs with
  | nil => intro st; rfl
  | cons m rest ih =>
    intro st
    simp only [List.cons_append, sleepRunFrom]
    cases sleepStep st m with
    | error e => rfl
    | ok st1 => exact ih st1

/-- An event record of the lifecycle group, as produced for the sleep view. -/
def mkEvent (ty : String) (t : Int) : FITMsg :=
  ⟨"demo.fit", "event_mesgs", [("event_type", .str ty), ("timestamp", .dt t)]⟩

theorem sleepStep_start (st : SleepState) (t : Int) :
    sleepStep st (mkEvent "start" t) = .ok ⟨st.rows, some t, st.finished_at⟩ := by
  rfl

theorem sleepStep_stop_open (st : SleepState) (s t : Int)
    (h : st.started_at = some s) :
    sleepStep st (mkEvent "stop" t) =
      .ok ⟨st.rows ++ [⟨dateOf t, durationCode s t, .num 0⟩], some s, some t⟩ := by
  unfold sleepStep
  simp [mkEvent, FITMsg.timestamp, h, List.lookup]

/-- C9 (amended): end of stream while a session is OPEN discards that open
    session: appending a trailing unmatched start event to any stream
    leaves the emitted rows unchanged.  A session closed by a stop event is
    appended immediately with score placeholder 0, so a stream ending
    before the score record retains that session (with score 0) rather
    than discarding it. -/
theorem C9_end_of_stream (msgs : List FITMsg) (st : SleepState) (t : Int)
    (h : sleepRunFrom initSleep msgs = .ok st) :
    (match sleepRunFrom initSleep (msgs ++ [mkEvent "start" t]) with
      | .error e => .error e
      | .ok st1 => .ok st1.rows) = Except.ok (ε := String) st.rows ∧
    (∀ s, st.started_at = some s →
      sleepRunFrom initSleep (msgs ++ [mkEvent "stop" t]) =
        .ok ⟨st.rows ++ [⟨dateOf t, durationCode s t, .num 0⟩], some s, some t⟩) := by
  constructor
  · rw [sleepRunFrom_append, h]
    simp only [sleepRunFrom, sleepStep_start]
  · intro s hs
    rw [sleepRunFrom_append, h]
    simp only [sleepRunFrom, sleepStep_stop_open st s t hs]

/-- C9 witness: a start/stop pair followed by a trailing start: the
    trailing open session is discarded, while the stop-closed session
    stays, carrying the placeholder score 0. -/
theorem C9_end_of_stream_witness :
    (match sleepRunFrom initSleep
        ([mkEvent "start" 0, mkEvent "stop" 28800] ++ [mkEvent "start" 30000]) with
      | .error e => .error e
      | .ok st1 => .ok st1.rows) =
      Except.ok (ε := String) [⟨0, durationCode 0 28800, .num 0⟩] ∧
    sleepRunFrom initSleep ([mkEvent "start" 0] ++ [mkEvent "stop" 28800]) =
      .ok ⟨[] ++ [⟨dateOf 28800, durationCode 0 28800, .num 0⟩], some 0, some 28800⟩ :=
  ⟨(C9_end_of_stream [mkEvent "start" 0, mkEvent "stop" 28800]
      ⟨[⟨0, durationCode 0 28800, .num 0⟩], some 0, some 28800⟩ 30000 rfl).1,
   (C9_end_of_stream [mkEvent "start" 0]
      ⟨[], some 0, none⟩ 28800 rfl).2 0 rfl⟩

/-- C9 counterexample: the stream [start, stop] ends while the machine is
    awaiting the score, yet the extractor output contains the session (with
    placeholder score 0); it is not discarded. -/
theorem C9_end_of_stream_cex :
    sleepRunFrom initSleep [mkEvent "start" 0, mkEvent "stop" 28800] =
      .ok ⟨[⟨0, durationCode 0 28800, .num 0⟩], some 0, some 28800⟩ ∧
    ([⟨0, durationCode 0 28800, .num 0⟩] : List SleepRow) ≠ [] := by
  exact ⟨rfl, by simp⟩

/-- C4: the emitted session is keyed by the stop date (dateOf 90000 = 1),
    but for the 25 hour interval between start at 0 and stop at 90000 the
    code computes round(timedelta.seconds / 3600, 2) = 1.00, the seconds
    component with the whole day dropped, where the claimed formula
    round(total_seconds / 3600, 2) gives 25.00. -/
theorem C4_duration_drops_days :
    sleepRunFrom initSleep [mkEvent "start" 0, mkEvent "stop" 90000] =
      .ok ⟨[⟨1, durationCode 0 90000, .num 0⟩], some 0, some 90000⟩ ∧
    durationCode 0 90000 = 1 ∧
    duration_hours_spec 0 90000 = 25 ∧
    (1 : ℚ) ≠ 25 :=
  ⟨rfl,
   by norm_num [durationCode, pyRound2, roundHalfEven],
   by norm_num [duration_hours_spec, pyRound2, roundHalfEven],
   by norm_num⟩

/-- C10 (amended): a stop event is silently ignored, with the state
    unchanged, exactly when no start event has been seen at all in the
    stream (started_at is still None); since started_at is never reset
    after a stop, a later stop without a new start is NOT ignored but
    closes a further session against the stale start timestamp. -/
theorem C10_stop_without_any_start (st : SleepState) (m : FITMsg)
    (hg : m.group_name = "event_mesgs")
    (he : m.fields.lookup "event_type" = some (.str "stop"))
    (hn : st.started_at = none) :
    sleepStep st m = .ok st := by
  unfold sleepStep
  rw [if_pos hg, he, hn]
  rfl

/-- C10 witness: a stop event against the initial state is a no-op. -/
theorem C10_stop_without_any_start_witness :
    sleepStep initSleep (mkEvent "stop" 5) = .ok initSleep :=
  C10_stop_without_any_start initSleep (mkEvent "stop" 5) rfl rfl rfl

/-- C10 counterexample: after start at 0 and stop at 3600, a second stop at
    7200 arrives with no session open (no unconsumed start), yet the code
    emits a second session against the stale start instant instead of
    ignoring the event. -/
theorem C10_stop_ignored_cex :
    sleepRunFrom initSleep
        [mkEvent "start" 0, mkEvent "stop" 3600, mkEvent "stop" 7200] =
      .ok ⟨[⟨0, durationCode 0 3600, .num 0⟩, ⟨0, durationCode 0 7200, .num 0⟩],
           some 0, some 7200⟩ ∧
    ([⟨0, durationCode 0 3600, .num 0⟩,
      ⟨0, durationCode 0 7200, .num 0⟩] : List SleepRow).length ≠ 1 :=
  ⟨rfl, by simp⟩

/-- C5 (amended): a decode failure (invalid container or a non-empty
    decoder error list) raises a ValueError naming the file; nothing
    catches it, so the failing file AND every later file of the batch are
    not processed (the messages of earlier files have already been
    yielded).  The error does surface the file name. -/
theorem C5_decode_failure_aborts_batch (n : String) (r : DecodeResult)
    (rest : List (String × DecodeResult)) (e : String)
    (since untl : Option Int) (h : parse_file n r = .error e) :
    parse_files ((n, r) :: rest) since untl = ([], some e) ∧
    (e = "not a valid FIT file: " ++ n ∨ e = "failed to read: " ++ n) := by
  constructor
  · unfold parse_files
    rw [h]
  · cases r with
    | notFit =>
      simp only [parse_file, Except.error.injEq] at h
      exact Or.inl h.symm
    | decoded msgs errs =>
      simp only [parse_file] at h
      by_cases he : errs.isEmpty = true
      · rw [if_pos he] at h
        exact absurd h (by simp)
      · rw [if_neg he] at h
        simp only [Except.error.injEq] at h
        exact Or.inr h.symm

/-- C5 witness: a batch of a failing file followed by a good file yields no
    messages at all and surfaces the failing file name. -/
theorem C5_decode_failure_aborts_batch_witness :
    parse_files [("bad.fit", .decoded [] ["boom"]),
        ("good.fit", .decoded [⟨"good.fit", "monitoring_mesgs", []⟩] [])]
      none none = ([], some "failed to read: bad.fit") ∧
    ("failed to read: bad.fit" = "not a valid FIT file: " ++ "bad.fit" ∨
      "failed to read: bad.fit" = "failed to read: " ++ "bad.fit") :=
  C5_decode_failure_aborts_batch "bad.fit" (.decoded [] ["boom"])
    [("good.fit", .decoded [⟨"good.fit", "monitoring_mesgs", []⟩] [])]
    "failed to read: bad.fit" none none rfl

/-- C5 counterexample: the claim says the remaining files of the batch are
    still processed, but after the failing first file the good file
    contributes no messages: the whole batch is aborted. -/
theorem C5_decode_failure_aborts_batch_cex :
    parse_files [("bad.fit", .decoded [] ["boom"]),
        ("good.fit", .decoded [⟨"good.fit", "monitoring_mesgs",
          [("timestamp", .dt 0), ("heart_rate", .num 60)]⟩] [])]
      none none = ([], some "failed to read: bad.fit") ∧
    (⟨"good.fit", "monitoring_mesgs",
      [("timestamp", .dt 0), ("heart_rate", .num 60)]⟩ : FITMsg) ∉
      ([] : List FITMsg) :=
  ⟨rfl, by simp⟩

/-- The loop body of plot_stress_history (src/fitparse.py lines 403 to
    412): for a stress record the code first calls
    msg.timestamp.astimezone() (AttributeError when stress_level_time is
    missing), then reads msg with the stress_level_value key (KeyError when
    absent, TypeError on the comparison when not numeric), drops strictly
    negative readings and emits the rest. -/
def stressStep (m : FITMsg) : Except String (List (Int × ℚ)) :=
  if m.group_name = "stress_level_mesgs" then
    match m.timestamp with
    | none => .error "AttributeError: NoneType has no astimezone"
    | some t =>
      match (m.fields.lookup "stress_level_value").bind FieldVal.toQ with
      | none => .error "KeyError: stress_level_value"
      | some v => if v < 0 then .ok [] else .ok [(t, v)]
  else .ok []

/-- The loop of plot_stress_history over a record stream. -/
def stressRun : List FITMsg → Except String (List (Int × ℚ))
  | [] => .ok []
  | m :: rest =>
    match stressStep m with
    | .error e => .error e
    | .ok out =>
      match stressRun rest with
      | .error e => .error e
      | .ok tail => .ok (out ++ tail)

/-- C6 counterexample: a stress record carrying its timestamp but no
    stress_level_value field makes the stress derivation raise a KeyError
    that nothing catches; the record is not silently excluded. -/
theorem C6_missing_field_cex :
    stressRun [⟨"demo.fit", "stress_level_mesgs",
        [("stress_level_time", .dt 1000)]⟩] =
      .error "KeyError: stress_level_value" ∧
    stressRun [⟨"demo.fit", "stress_level_mesgs",
        [("stress_level_time", .dt 1000)]⟩] ≠ .ok [] :=
  ⟨rfl, by intro hcon; exact Except.noConfusion hcon⟩

/-- C6 (amended): only the fields tested by a view's explicit guards are
    excluded silently: a monitoring record without the guarded
    activity_type (or steps) field is skipped by the daily aggregation with
    no error, and an event record without the event_type field is skipped
    by the sleep extractor with no error; but a record that passes the
    guards while lacking a further field that the body reads without a
    guard (stress_level_value, active_calories, distance,
    overall_sleep_score, the timestamp of dump-steps) raises an uncaught
    exception. -/
theorem C6_guarded_fields_only (ds : AggMap) (st : SleepState) (m m1 : FITMsg)
    (h1 : m.fields.lookup "activity_type" = none)
    (hg : m1.group_name = "event_mesgs")
    (h2 : m1.fields.lookup "event_type" = none) :
    stepsAggStep ds m = .ok ds ∧ sleepStep st m1 = .ok st := by
  constructor
  · unfold stepsAggStep
    have hguard : monGuard m = false := by
      unfold monGuard FITMsg.has_fields
      simp [h1]
    rw [hguard]
    simp
  · unfold sleepStep
    rw [if_pos hg, h2]

/-- C6 witness: a monitoring record carrying only steps, and an event
    record carrying only a timestamp, are both skipped silently. -/
theorem C6_guarded_fields_only_witness :
    stepsAggStep [] ⟨"demo.fit", "monitoring_mesgs", [("steps", .num 7)]⟩ =
      .ok [] ∧
    sleepStep initSleep ⟨"demo.fit", "event_mesgs", [("timestamp", .dt 5)]⟩ =
      .ok initSleep :=
  C6_guarded_fields_only [] initSleep
    ⟨"demo.fit", "monitoring_mesgs", [("steps", .num 7)]⟩
    ⟨"demo.fit", "event_mesgs", [("timestamp", .dt 5)]⟩ rfl rfl rfl
